import Mathlib

/-!
Shallow embedding of `src/app.py` (PyCaret Data Explorer, a Streamlit app).

The script runs top to bottom on every interaction cycle: it reads the sidebar
widgets (built-in dataset selectbox, file uploader), loads a dataframe, shows a
preview, and on button press generates a profiling report with HTML/PDF export
buttons.  External libraries (pandas parsing, pycaret `get_data`, ydata
ProfileReport, pdfkit) are modelled as an environment of oracle functions; the
script's own control flow, message emission and widget wiring are translated
line by line.
-/

set_option autoImplicit false

namespace DataExplorer

/-- A pandas DataFrame, modelled as named columns plus rows of cells. -/
structure DataFrame where
  cols : List String
  rows : List (List String)
deriving DecidableEq, Repr

/-- `pd.DataFrame()` — the empty frame returned by `read_uploaded_file` on failure. -/
def DataFrame.empty : DataFrame := ⟨[], []⟩

/-- pandas `df.empty`: true when either axis has length 0. -/
def DataFrame.isEmpty (df : DataFrame) : Bool :=
  df.rows.isEmpty || df.cols.isEmpty

/-- pandas `df.head n`: the first `n` rows, columns unchanged. -/
def DataFrame.head (df : DataFrame) (n : Nat) : DataFrame :=
  ⟨df.cols, df.rows.take n⟩

/-- A file handed over by `st.file_uploader`: a name and raw bytes. -/
structure UploadedFile where
  name : String
  content : List Nat
deriving DecidableEq, Repr

/-- A user-visible Streamlit message: `st.error` / `st.warning` / `st.success` / `st.info`. -/
inductive Msg where
  | error : String → Msg
  | warning : String → Msg
  | success : String → Msg
  | info : String → Msg
deriving DecidableEq, Repr

/-- The keyword arguments passed to `ydata_profiling.ProfileReport` at
`app.py:127-132`. -/
structure ProfileConfig where
  data : DataFrame
  title : String
  explorative : Bool
  minimal : Bool
deriving DecidableEq, Repr

/-- An opaque profiling result produced by the external profiling library. -/
structure Profile where
  body : String
deriving DecidableEq, Repr

/-- A `st.download_button` invocation: its label, `file_name` and `mime` arguments. -/
structure Download where
  label : String
  file_name : String
  mime : String
deriving DecidableEq, Repr

/-- The external collaborators of the script, as oracle functions.  A raised
exception is modelled as `Except.error` with the exception's message. -/
structure Env where
  /-- `pycaret.datasets.get_data name` — ok, or raises (unknown name, network down). -/
  get_data : String → Except String DataFrame
  /-- `pd.read_csv file` — ok, or raises on malformed input. -/
  read_csv : UploadedFile → Except String DataFrame
  /-- `pd.read_excel file` — ok, or raises on malformed input. -/
  read_excel : UploadedFile → Except String DataFrame
  /-- `ProfileReport(**cfg)` together with rendering and `.to_html()` conversion —
  ok, or raises a profiling error. -/
  profile_report : ProfileConfig → Except String Profile
  /-- `profile.to_html()` on an already-built profile. -/
  to_html : Profile → String
  /-- `pdfkit.from_string html False` — PDF bytes, or raises (e.g. wkhtmltopdf missing). -/
  from_string : String → Except String (List Nat)

/-- The widget state read by one interaction cycle: the selectbox value
(`"-- none --"` or a built-in name), the uploader content, and whether the
"Generate Profiling Report" button was pressed this cycle. -/
structure Inputs where
  selected_builtin : String
  uploaded_file : Option UploadedFile
  generate_report : Bool
deriving DecidableEq, Repr

/-- The built-in dataset list offered by the selectbox (`app.py:81-84`). -/
def builtin_ds : List String :=
  ["juice", "titanic", "diabetes", "winequality-red", "iris", "boston_housing", "adult"]

/-- Modelled from the spec: `st.file_uploader` with `type=["csv", "xlsx"]`
(`app.py:89-93`) lets the user pick only files whose extension is in the list;
the list itself is taken verbatim from the source.  The uploader's
extension-filter semantics are the part not under `src/`. -/
def uploader_type : List String := ["csv", "xlsx"]

/-- Python's `str.endswith`, computed on the character list. -/
def strEndsWith (s post : String) : Bool :=
  post.data.isSuffixOf s.data

/-- Whether a file with the given name passes the uploader's extension filter. -/
def acceptsUpload (name : String) : Bool :=
  uploader_type.any (fun ext => strEndsWith name ("." ++ ext))

/-- The extension dispatch inside `read_uploaded_file` (`app.py:32-35`):
`.csv` goes to delimited-text parsing, anything else to spreadsheet parsing. -/
def parse_dispatch (env : Env) (file : UploadedFile) : Except String DataFrame :=
  if strEndsWith file.name ".csv" then env.read_csv file else env.read_excel file

/-- `read_uploaded_file` (`app.py:29-39`): parse the upload, and on any
exception emit `st.error` and return the empty frame. -/
def read_uploaded_file (env : Env) (file : UploadedFile) : DataFrame × List Msg :=
  match parse_dispatch env file with
  | .ok df => (df, [])
  | .error e => (DataFrame.empty, [Msg.error ("Could not read the file: " ++ e)])

/-- `convert_html_to_pdf` (`app.py:42-50`): call pdfkit, and on any exception
emit `st.warning` and return `None`. -/
def convert_html_to_pdf (env : Env) (html_str : String) : Option (List Nat) × List Msg :=
  match env.from_string html_str with
  | .ok pdf_bytes => (some pdf_bytes, [])
  | .error e => (none, [Msg.warning ("PDF conversion failed: " ++ e)])

/-- Python truthiness of `pdf_bytes` at `app.py:149`: `None` and empty bytes are falsy. -/
def bytesTruthy : Option (List Nat) → Bool
  | some b => !b.isEmpty
  | none => false

/-- The built-in branch of the data-loading block (`app.py:101-107`). -/
def loadBuiltin (env : Env) (sel : String) : Option DataFrame × List Msg :=
  if sel = "-- none --" then (none, [])
  else
    match env.get_data sel with
    | .ok d => (some d, [Msg.success ("✅ Loaded **" ++ sel ++ "** dataset.")])
    | .error e => (none, [Msg.error ("Error loading built‑in dataset: " ++ e)])

/-- The whole data-loading block (`app.py:99-113`): the built-in branch runs
first, then an uploaded file, if present, unconditionally overwrites `df` with
whatever `read_uploaded_file` returned. -/
def loadData (env : Env) (inp : Inputs) : Option DataFrame × List Msg :=
  match inp.uploaded_file with
  | some f =>
      (some (read_uploaded_file env f).1,
        (loadBuiltin env inp.selected_builtin).2 ++ (read_uploaded_file env f).2 ++
          (if (read_uploaded_file env f).1.isEmpty then []
           else [Msg.success "✅ Uploaded data loaded."]))
  | none => loadBuiltin env inp.selected_builtin

/-- The f-string interpolation `selected_builtin or 'uploaded_data'` used in both
download file names (`app.py:144` and `app.py:153`): Python `or` falls back only
when the string is falsy, i.e. empty. -/
def datasetLabel (selected_builtin : String) : String :=
  if selected_builtin = "" then "uploaded_data" else selected_builtin

/-- The keyword arguments of the `ProfileReport` call at `app.py:127-132`. -/
def profileConfigOf (df : DataFrame) : ProfileConfig :=
  { data := df, title := "Data Profiling", explorative := true, minimal := true }

/-- What the report-generation branch contributes to the page. -/
structure GenOut where
  /-- The configuration the profiling library was invoked with, if it was invoked. -/
  profiledWith : Option ProfileConfig
  htmlButton : Option Download
  pdfButton : Option Download
  msgs : List Msg
deriving DecidableEq, Repr

/-- The `try` block under the "Generate Profiling Report" button
(`app.py:126-157`): build the profile, render it, offer the HTML download, then
attempt PDF conversion and offer the PDF download only when the bytes are
truthy; any profiling exception is caught and shown as `st.error`. -/
def generateSection (env : Env) (sel : String) (df : DataFrame) : GenOut :=
  match env.profile_report (profileConfigOf df) with
  | .ok profile =>
      { profiledWith := some (profileConfigOf df)
        htmlButton := some
          ⟨"📥 Download HTML", datasetLabel sel ++ "_profiling.html", "text/html"⟩
        pdfButton :=
          if bytesTruthy (convert_html_to_pdf env (env.to_html profile)).1 then
            some ⟨"📥 Download PDF", datasetLabel sel ++ "_profiling.pdf", "application/pdf"⟩
          else none
        msgs := (convert_html_to_pdf env (env.to_html profile)).2 }
  | .error e =>
      { profiledWith := some (profileConfigOf df)
        htmlButton := none
        pdfButton := none
        msgs := [Msg.error ("Profiling failed: " ++ e)] }

/-- The `st.info` prompt shown when no (non-empty) dataframe is present (`app.py:160`). -/
def startInfo : String :=
  "Select a built‑in dataset or upload a CSV/Excel file to start."

/-- Everything one interaction cycle leaves on the page. -/
structure CycleOutput where
  /-- The value of the script variable `df` at the end of the run. -/
  df : Option DataFrame
  msgs : List Msg
  /-- The dataframe handed to `st.dataframe` in the preview block, if any. -/
  preview : Option DataFrame
  profiledWith : Option ProfileConfig
  htmlButton : Option Download
  pdfButton : Option Download
deriving DecidableEq, Repr

/-- One full top-to-bottom run of the script (`app.py:99-160`) as a function of
the widget state: load data, then either preview (and possibly profile), or
show the start prompt. -/
def runCycle (env : Env) (inp : Inputs) : CycleOutput :=
  match (loadData env inp).1 with
  | some df =>
      if df.isEmpty then
        { df := some df, msgs := (loadData env inp).2 ++ [Msg.info startInfo],
          preview := none, profiledWith := none, htmlButton := none, pdfButton := none }
      else if inp.generate_report then
        { df := some df,
          msgs := (loadData env inp).2 ++ (generateSection env inp.selected_builtin df).msgs,
          preview := some (df.head 10),
          profiledWith := (generateSection env inp.selected_builtin df).profiledWith,
          htmlButton := (generateSection env inp.selected_builtin df).htmlButton,
          pdfButton := (generateSection env inp.selected_builtin df).pdfButton }
      else
        { df := some df, msgs := (loadData env inp).2, preview := some (df.head 10),
          profiledWith := none, htmlButton := none, pdfButton := none }
  | none =>
      { df := none, msgs := (loadData env inp).2 ++ [Msg.info startInfo],
        preview := none, profiledWith := none, htmlButton := none, pdfButton := none }

/-- The spec's interactive-shell states (`spec.md` §4.5), read off a cycle's
page: `Idle` when no non-empty dataframe is active, `Profiled` when a report
(and hence its HTML export) was produced, `Loaded` otherwise. -/
inductive ShellState where
  | Idle : ShellState
  | Loaded : DataFrame → ShellState
  | Profiled : DataFrame → ShellState
deriving DecidableEq, Repr

/-- The shell state a cycle ends in. -/
def cycleState (env : Env) (inp : Inputs) : ShellState :=
  match (runCycle env inp).df with
  | some df =>
      if df.isEmpty then ShellState.Idle
      else if (runCycle env inp).htmlButton.isSome then ShellState.Profiled df
      else ShellState.Loaded df
  | none => ShellState.Idle

/-! ### Concrete test fixtures used by witnesses and counterexamples -/

/-- A small stand-in for the `juice` sample dataset. -/
def juiceDF : DataFrame :=
  ⟨["Id", "Purchase", "WeekofPurchase"],
   [["1", "CH", "237"], ["2", "CH", "239"], ["3", "CH", "245"]]⟩

/-- The dataframe a well-formed CSV upload parses to. -/
def csvDF : DataFrame := ⟨["a", "b"], [["1", "2"], ["3", "4"]]⟩

/-- A well-formed CSV upload. -/
def goodCsv : UploadedFile := ⟨"good.csv", [97, 10]⟩

/-- A malformed upload with a `.csv` extension. -/
def badCsv : UploadedFile := ⟨"bad.csv", [0]⟩

/-- The profile object the test oracle produces. -/
def testProfile : Profile := ⟨"profile-body"⟩

/-- A test environment: `juice` is the one known built-in, `good.csv` the one
parseable upload, profiling succeeds, PDF conversion fails (renderer missing). -/
def testEnv : Env :=
  { get_data := fun name => if name = "juice" then .ok juiceDF else .error "not found"
    read_csv := fun f => if f.name = "good.csv" then .ok csvDF else .error "ParserError"
    read_excel := fun _ => .error "not a spreadsheet"
    profile_report := fun _ => .ok testProfile
    to_html := fun p => "<html>" ++ p.body ++ "</html>"
    from_string := fun _ => .error "wkhtmltopdf not found" }

/-- `testEnv` with a working PDF renderer. -/
def pdfEnv : Env := { testEnv with from_string := fun _ => .ok [37, 80, 68, 70] }

/-- `testEnv` with a profiling library that always raises. -/
def profFailEnv : Env := { testEnv with profile_report := fun _ => .error "ValueError" }

/-- Cycle inputs: built-in `juice` selected, nothing uploaded, no button press. -/
def inpJuice : Inputs := ⟨"juice", none, false⟩

/-- Cycle inputs: built-in `juice` selected and a malformed `.csv` uploaded. -/
def inpJuiceBadUpload : Inputs := ⟨"juice", some badCsv, false⟩

/-- Cycle inputs: built-in `juice` selected, generate button pressed. -/
def inpJuiceGen : Inputs := ⟨"juice", none, true⟩

/-- Cycle inputs: an unknown built-in selected, nothing uploaded. -/
def inpBadBuiltin : Inputs := ⟨"boston_housing", none, false⟩

/-- Cycle inputs: no built-in, a malformed `.csv` uploaded. -/
def inpBadUploadOnly : Inputs := ⟨"-- none --", some badCsv, false⟩

/-! ### Shared structural lemmas about `runCycle` -/

/-- The `df` the page ends with is exactly what the loading block produced. -/
theorem runCycle_df_eq (env : Env) (inp : Inputs) :
    (runCycle env inp).df = (loadData env inp).1 := by
  unfold runCycle
  split
  · rename_i df h
    split_ifs <;> simp [h]
  · rename_i h
    simp [h]

/-- Shape of the loading block's result when an upload is present. -/
theorem loadData_upload (env : Env) (inp : Inputs) (f : UploadedFile)
    (h : inp.uploaded_file = some f) :
    loadData env inp =
      (some (read_uploaded_file env f).1,
        (loadBuiltin env inp.selected_builtin).2 ++ (read_uploaded_file env f).2 ++
          (if (read_uploaded_file env f).1.isEmpty then []
           else [Msg.success "✅ Uploaded data loaded."])) := by
  unfold loadData
  rw [h]

/-- Shape of the loading block's result when no upload is present. -/
theorem loadData_no_upload (env : Env) (inp : Inputs)
    (h : inp.uploaded_file = none) :
    loadData env inp = loadBuiltin env inp.selected_builtin := by
  unfold loadData
  rw [h]

/-- The page's messages extend the loading block's messages. -/
theorem runCycle_msgs_append (env : Env) (inp : Inputs) :
    ∃ t, (runCycle env inp).msgs = (loadData env inp).2 ++ t := by
  unfold runCycle
  split
  · split_ifs
    · exact ⟨[Msg.info startInfo], rfl⟩
    · exact ⟨_, rfl⟩
    · exact ⟨[], by simp⟩
  · exact ⟨[Msg.info startInfo], rfl⟩

/-- Shape of the page when the loading block produced a non-empty dataframe
and the generate button was pressed. -/
theorem runCycle_generate (env : Env) (inp : Inputs) (df : DataFrame)
    (hld : (loadData env inp).1 = some df) (hne : df.isEmpty = false)
    (hgen : inp.generate_report = true) :
    runCycle env inp =
      { df := some df,
        msgs := (loadData env inp).2 ++ (generateSection env inp.selected_builtin df).msgs,
        preview := some (df.head 10),
        profiledWith := (generateSection env inp.selected_builtin df).profiledWith,
        htmlButton := (generateSection env inp.selected_builtin df).htmlButton,
        pdfButton := (generateSection env inp.selected_builtin df).pdfButton } := by
  unfold runCycle
  split
  · rename_i df2 heq
    rw [hld] at heq
    injection heq with heq2
    subst heq2
    rw [if_neg (show ¬(df.isEmpty = true) by simp [hne]), if_pos hgen]
  · rename_i heq
    rw [hld] at heq
    simp at heq

/-- Shape of the page when the loading block produced a non-empty dataframe
and the generate button was not pressed. -/
theorem runCycle_no_generate (env : Env) (inp : Inputs) (df : DataFrame)
    (hld : (loadData env inp).1 = some df) (hne : df.isEmpty = false)
    (hgen : inp.generate_report = false) :
    runCycle env inp =
      { df := some df, msgs := (loadData env inp).2, preview := some (df.head 10),
        profiledWith := none, htmlButton := none, pdfButton := none } := by
  unfold runCycle
  split
  · rename_i df2 heq
    rw [hld] at heq
    injection heq with heq2
    subst heq2
    rw [if_neg (show ¬(df.isEmpty = true) by simp [hne]),
      if_neg (show ¬(inp.generate_report = true) by simp [hgen])]
  · rename_i heq
    rw [hld] at heq
    simp at heq

/-- Shape of the page when the loading block produced an empty dataframe. -/
theorem runCycle_empty_df (env : Env) (inp : Inputs) (df : DataFrame)
    (hld : (loadData env inp).1 = some df) (he : df.isEmpty = true) :
    runCycle env inp =
      { df := some df, msgs := (loadData env inp).2 ++ [Msg.info startInfo],
        preview := none, profiledWith := none, htmlButton := none, pdfButton := none } := by
  unfold runCycle
  split
  · rename_i df2 heq
    rw [hld] at heq
    injection heq with heq2
    subst heq2
    rw [if_pos he]
  · rename_i heq
    rw [hld] at heq
    simp at heq

/-- Shape of the page when the loading block produced no dataframe. -/
theorem runCycle_no_df (env : Env) (inp : Inputs)
    (hld : (loadData env inp).1 = none) :
    runCycle env inp =
      { df := none, msgs := (loadData env inp).2 ++ [Msg.info startInfo],
        preview := none, profiledWith := none, htmlButton := none, pdfButton := none } := by
  unfold runCycle
  split
  · rename_i df2 heq
    rw [hld] at heq
    simp at heq
  · rfl

/-- Shape of the generate branch when the profiling library succeeds. -/
theorem generateSection_ok (env : Env) (sel : String) (df : DataFrame) (p : Profile)
    (hpr : env.profile_report (profileConfigOf df) = .ok p) :
    generateSection env sel df =
      { profiledWith := some (profileConfigOf df),
        htmlButton := some
          ⟨"📥 Download HTML", datasetLabel sel ++ "_profiling.html", "text/html"⟩,
        pdfButton :=
          if bytesTruthy (convert_html_to_pdf env (env.to_html p)).1 then
            some ⟨"📥 Download PDF", datasetLabel sel ++ "_profiling.pdf", "application/pdf"⟩
          else none,
        msgs := (convert_html_to_pdf env (env.to_html p)).2 } := by
  unfold generateSection
  rw [hpr]

/-- Shape of the generate branch when the profiling library raises. -/
theorem generateSection_error (env : Env) (sel : String) (df : DataFrame) (e : String)
    (hpr : env.profile_report (profileConfigOf df) = .error e) :
    generateSection env sel df =
      { profiledWith := some (profileConfigOf df), htmlButton := none,
        pdfButton := none, msgs := [Msg.error ("Profiling failed: " ++ e)] } := by
  unfold generateSection
  rw [hpr]

/-! ### Claims -/

/-- C1: in any interaction cycle in which an uploaded file is present, the
active dataframe at the end of the cycle is exactly the one
`read_uploaded_file` produced from that upload — the upload overwrites
whatever the built-in branch loaded (`app.py:109-111`). -/
theorem upload_overrides_builtin (env : Env) (inp : Inputs) (f : UploadedFile)
    (h : inp.uploaded_file = some f) :
    (runCycle env inp).df = some (read_uploaded_file env f).1 := by
  rw [runCycle_df_eq]
  unfold loadData
  rw [h]

/-- C1 witness: a concrete cycle with both a built-in selection and an upload. -/
theorem upload_overrides_builtin_witness :
    (runCycle testEnv inpJuiceBadUpload).df = some (read_uploaded_file testEnv badCsv).1 :=
  upload_overrides_builtin testEnv inpJuiceBadUpload badCsv rfl

/-- C10: `read_uploaded_file` is total over its input: whatever the parser
does, it returns a dataframe — the parsed table when parsing succeeds, the
empty frame plus an `st.error` message when parsing raises — and never
propagates the failure to its caller. -/
theorem read_uploaded_file_total (env : Env) (f : UploadedFile) :
    (∀ df, parse_dispatch env f = .ok df → read_uploaded_file env f = (df, [])) ∧
    (∀ e, parse_dispatch env f = .error e →
      read_uploaded_file env f =
        (DataFrame.empty, [Msg.error ("Could not read the file: " ++ e)])) := by
  constructor
  · intro df h
    unfold read_uploaded_file
    rw [h]
  · intro e h
    unfold read_uploaded_file
    rw [h]

/-- C10 witness: both the success case and the failure case at concrete files. -/
theorem read_uploaded_file_total_witness :
    read_uploaded_file testEnv goodCsv = (csvDF, []) ∧
    read_uploaded_file testEnv badCsv =
      (DataFrame.empty, [Msg.error ("Could not read the file: " ++ "ParserError")]) :=
  ⟨(read_uploaded_file_total testEnv goodCsv).1 csvDF rfl,
   (read_uploaded_file_total testEnv badCsv).2 "ParserError" rfl⟩

/-- C3: a malformed upload (parser raises) yields the empty dataframe together
with the `st.error` message; the message is user-visible — it is among the
cycle's emitted messages — and the cycle still runs to completion (the
embedding is a total function, mirroring the `try`/`except` at `app.py:31-39`). -/
theorem malformed_upload_soft_failure (env : Env) (inp : Inputs) (f : UploadedFile) (e : String)
    (hup : inp.uploaded_file = some f)
    (herr : parse_dispatch env f = .error e) :
    read_uploaded_file env f =
      (DataFrame.empty, [Msg.error ("Could not read the file: " ++ e)]) ∧
    (runCycle env inp).df = some DataFrame.empty ∧
    Msg.error ("Could not read the file: " ++ e) ∈ (runCycle env inp).msgs := by
  have hred : read_uploaded_file env f =
      (DataFrame.empty, [Msg.error ("Could not read the file: " ++ e)]) := by
    unfold read_uploaded_file
    rw [herr]
  refine ⟨hred, ?_, ?_⟩
  · rw [runCycle_df_eq, loadData_upload env inp f hup, hred]
  · obtain ⟨t, ht⟩ := runCycle_msgs_append env inp
    rw [ht, loadData_upload env inp f hup, hred]
    simp

/-- C3 witness: a malformed `.csv` upload with no built-in selected. -/
theorem malformed_upload_soft_failure_witness :
    read_uploaded_file testEnv badCsv =
      (DataFrame.empty, [Msg.error ("Could not read the file: " ++ "ParserError")]) ∧
    (runCycle testEnv inpBadUploadOnly).df = some DataFrame.empty ∧
    Msg.error ("Could not read the file: " ++ "ParserError") ∈
      (runCycle testEnv inpBadUploadOnly).msgs :=
  malformed_upload_soft_failure testEnv inpBadUploadOnly badCsv "ParserError" rfl rfl

/-- C7: when a built-in name is selected and `get_data` raises, the built-in
branch contributes no dataframe and emits the `st.error` message; that message
is user-visible in the cycle, and when no upload is present either, the cycle
ends with `df` unset. -/
theorem builtin_load_failure (env : Env) (inp : Inputs) (e : String)
    (hsel : inp.selected_builtin ≠ "-- none --")
    (herr : env.get_data inp.selected_builtin = .error e) :
    loadBuiltin env inp.selected_builtin =
      (none, [Msg.error ("Error loading built‑in dataset: " ++ e)]) ∧
    Msg.error ("Error loading built‑in dataset: " ++ e) ∈ (runCycle env inp).msgs ∧
    (inp.uploaded_file = none → (runCycle env inp).df = none) := by
  have hlb : loadBuiltin env inp.selected_builtin =
      (none, [Msg.error ("Error loading built‑in dataset: " ++ e)]) := by
    unfold loadBuiltin
    rw [if_neg hsel, herr]
  refine ⟨hlb, ?_, ?_⟩
  · obtain ⟨t, ht⟩ := runCycle_msgs_append env inp
    rw [ht]
    rcases hu : inp.uploaded_file with _ | f
    · rw [loadData_no_upload env inp hu, hlb]
      simp
    · rw [loadData_upload env inp f hu, hlb]
      simp
  · intro hu
    rw [runCycle_df_eq, loadData_no_upload env inp hu, hlb]

/-- C7 witness: the unknown built-in `boston_housing` in the test environment. -/
theorem builtin_load_failure_witness :
    loadBuiltin testEnv inpBadBuiltin.selected_builtin =
      (none, [Msg.error ("Error loading built‑in dataset: " ++ "not found")]) ∧
    Msg.error ("Error loading built‑in dataset: " ++ "not found") ∈
      (runCycle testEnv inpBadBuiltin).msgs ∧
    (inpBadBuiltin.uploaded_file = none → (runCycle testEnv inpBadBuiltin).df = none) :=
  builtin_load_failure testEnv inpBadBuiltin "not found" (by decide) rfl

/-- C5: the uploader's accepted-extension set as configured.  The claimed set
adds `.xls`, but `type=["csv", "xlsx"]` at `app.py:91` omits it, so `.xls`
files cannot be picked — although the parser's own `else` branch at
`app.py:34` is commented `# .xlsx, .xls` and the module docstring advertises
"CSV / Excel"; `.csv` and `.xlsx` are accepted as claimed. -/
theorem uploader_filter_rejects_xls :
    uploader_type = ["csv", "xlsx"] ∧
    acceptsUpload "data.xls" = false ∧
    acceptsUpload "data.csv" = true ∧
    acceptsUpload "data.xlsx" = true := by
  refine ⟨rfl, ?_, ?_, ?_⟩ <;> decide

/-- C2 counterexample: with built-in `juice` selected (loading fine, state
`Loaded juiceDF`), adding a malformed upload to the same widget state ends the
cycle `Idle` with the empty dataframe active: the failing upload action
discards the previously active built-in dataset instead of leaving the shell
at its prior stable state. -/
theorem failed_upload_discards_builtin :
    testEnv.get_data "juice" = Except.ok juiceDF ∧
    cycleState testEnv inpJuice = ShellState.Loaded juiceDF ∧
    inpJuiceBadUpload = { inpJuice with uploaded_file := some badCsv } ∧
    parse_dispatch testEnv badCsv = Except.error "ParserError" ∧
    cycleState testEnv inpJuiceBadUpload = ShellState.Idle ∧
    (runCycle testEnv inpJuiceBadUpload).df = some DataFrame.empty := by
  refine ⟨rfl, by decide, rfl, rfl, by decide, by decide⟩

/-- C2 amended: a built-in load failure (with no upload) and a profiling
failure do leave the shell at its prior stable state — the former ends `Idle`
with `df` unset, the latter keeps the session `Loaded` on the same unchanged
dataframe; but a failing upload does not: it replaces the active dataframe
with the empty one, discarding any built-in dataset loaded in the same cycle,
and drops the shell to `Idle`. -/
theorem failure_transition_behaviour (env : Env) (inp : Inputs) :
    (inp.uploaded_file = none → inp.selected_builtin ≠ "-- none --" →
      (∀ e, env.get_data inp.selected_builtin = .error e →
        (runCycle env inp).df = none ∧ cycleState env inp = ShellState.Idle)) ∧
    (∀ df, (loadData env inp).1 = some df → df.isEmpty = false →
      inp.generate_report = true →
      (∀ e, env.profile_report (profileConfigOf df) = .error e →
        cycleState env inp = ShellState.Loaded df)) ∧
    (∀ f, inp.uploaded_file = some f →
      (∀ e, parse_dispatch env f = .error e →
        (runCycle env inp).df = some DataFrame.empty ∧
        cycleState env inp = ShellState.Idle)) := by
  refine ⟨?_, ?_, ?_⟩
  · intro hu hsel e herr
    have hlb : loadBuiltin env inp.selected_builtin =
        (none, [Msg.error ("Error loading built‑in dataset: " ++ e)]) := by
      unfold loadBuiltin
      rw [if_neg hsel, herr]
    have hdf : (runCycle env inp).df = none := by
      rw [runCycle_df_eq, loadData_no_upload env inp hu, hlb]
    refine ⟨hdf, ?_⟩
    unfold cycleState
    rw [hdf]
  · intro df hld hne hgen e herr
    have hgs : generateSection env inp.selected_builtin df =
        { profiledWith := some (profileConfigOf df), htmlButton := none,
          pdfButton := none, msgs := [Msg.error ("Profiling failed: " ++ e)] } := by
      unfold generateSection
      rw [herr]
    have hdf : (runCycle env inp).df = some df := by
      rw [runCycle_df_eq, hld]
    have hbtn : (runCycle env inp).htmlButton = none := by
      unfold runCycle
      rw [hld]
      simp [hne, hgen, hgs]
    unfold cycleState
    rw [hdf]
    simp [hne, hbtn]
  · intro f hu e herr
    have hred : read_uploaded_file env f =
        (DataFrame.empty, [Msg.error ("Could not read the file: " ++ e)]) := by
      unfold read_uploaded_file
      rw [herr]
    have hdf : (runCycle env inp).df = some DataFrame.empty := by
      rw [runCycle_df_eq, loadData_upload env inp f hu, hred]
    refine ⟨hdf, ?_⟩
    unfold cycleState
    rw [hdf]
    exact rfl

/-- C2 amended witness: the three cases at concrete environments and inputs. -/
theorem failure_transition_behaviour_witness :
    ((runCycle testEnv inpBadBuiltin).df = none ∧
      cycleState testEnv inpBadBuiltin = ShellState.Idle) ∧
    cycleState profFailEnv inpJuiceGen = ShellState.Loaded juiceDF ∧
    ((runCycle testEnv inpBadUploadOnly).df = some DataFrame.empty ∧
      cycleState testEnv inpBadUploadOnly = ShellState.Idle) :=
  ⟨(failure_transition_behaviour testEnv inpBadBuiltin).1 rfl (by decide) "not found" rfl,
   (failure_transition_behaviour profFailEnv inpJuiceGen).2.1 juiceDF rfl rfl rfl
     "ValueError" rfl,
   (failure_transition_behaviour testEnv inpBadUploadOnly).2.2 badCsv rfl "ParserError" rfl⟩

/-- C4: when profiling succeeds but PDF conversion raises, the conversion
helper returns `None` together with an `st.warning` (not an `st.error`), the
cycle offers no PDF download button, the warning is among the cycle's
messages, and the HTML download button is still offered (`app.py:42-50` and
`app.py:139-155`; the HTML button is created before the conversion attempt). -/
theorem pdf_failure_is_soft (env : Env) (inp : Inputs) (df : DataFrame) (p : Profile)
    (e : String)
    (hld : (loadData env inp).1 = some df) (hne : df.isEmpty = false)
    (hgen : inp.generate_report = true)
    (hpr : env.profile_report (profileConfigOf df) = .ok p)
    (hpdf : env.from_string (env.to_html p) = .error e) :
    convert_html_to_pdf env (env.to_html p) =
      (none, [Msg.warning ("PDF conversion failed: " ++ e)]) ∧
    (runCycle env inp).pdfButton = none ∧
    (runCycle env inp).htmlButton =
      some ⟨"📥 Download HTML",
            datasetLabel inp.selected_builtin ++ "_profiling.html", "text/html"⟩ ∧
    Msg.warning ("PDF conversion failed: " ++ e) ∈ (runCycle env inp).msgs := by
  have hconv : convert_html_to_pdf env (env.to_html p) =
      (none, [Msg.warning ("PDF conversion failed: " ++ e)]) := by
    unfold convert_html_to_pdf
    rw [hpdf]
  have hgs : generateSection env inp.selected_builtin df =
      { profiledWith := some (profileConfigOf df),
        htmlButton := some ⟨"📥 Download HTML",
          datasetLabel inp.selected_builtin ++ "_profiling.html", "text/html"⟩,
        pdfButton := none,
        msgs := [Msg.warning ("PDF conversion failed: " ++ e)] } := by
    rw [generateSection_ok env inp.selected_builtin df p hpr, hconv]
    exact rfl
  have hrc := runCycle_generate env inp df hld hne hgen
  refine ⟨hconv, ?_, ?_, ?_⟩
  · rw [hrc, hgs]
  · rw [hrc, hgs]
  · rw [hrc]
    simp [hgs]

/-- C4 witness: the test environment has no PDF renderer; the cycle with
`juice` and a button press still offers the HTML download. -/
theorem pdf_failure_is_soft_witness :
    convert_html_to_pdf testEnv (testEnv.to_html testProfile) =
      (none, [Msg.warning ("PDF conversion failed: " ++ "wkhtmltopdf not found")]) ∧
    (runCycle testEnv inpJuiceGen).pdfButton = none ∧
    (runCycle testEnv inpJuiceGen).htmlButton =
      some ⟨"📥 Download HTML",
            datasetLabel inpJuiceGen.selected_builtin ++ "_profiling.html", "text/html"⟩ ∧
    Msg.warning ("PDF conversion failed: " ++ "wkhtmltopdf not found") ∈
      (runCycle testEnv inpJuiceGen).msgs :=
  pdf_failure_is_soft testEnv inpJuiceGen juiceDF testProfile "wkhtmltopdf not found"
    rfl rfl rfl rfl rfl

/-- C6: every HTML download button a cycle offers is named
`datasetLabel sel ++ "_profiling.html"` with mime `text/html`, every PDF
button `datasetLabel sel ++ "_profiling.pdf"` with mime `application/pdf`,
where `sel` is the selectbox value: the built-in name when one was chosen,
and otherwise the fixed sentinel label `-- none --` — the code's
`'uploaded_data'` fallback applies only to the empty string, which the
selectbox never yields. -/
theorem export_file_names (env : Env) (inp : Inputs) :
    (∀ b, (runCycle env inp).htmlButton = some b →
      b.file_name = datasetLabel inp.selected_builtin ++ "_profiling.html" ∧
      b.mime = "text/html") ∧
    (∀ b, (runCycle env inp).pdfButton = some b →
      b.file_name = datasetLabel inp.selected_builtin ++ "_profiling.pdf" ∧
      b.mime = "application/pdf") ∧
    (inp.selected_builtin ≠ "" → datasetLabel inp.selected_builtin = inp.selected_builtin) ∧
    datasetLabel "-- none --" = "-- none --" := by
  refine ⟨?_, ?_, ?_, rfl⟩
  · intro b hb
    rcases hld : (loadData env inp).1 with _ | df
    · rw [runCycle_no_df env inp hld] at hb
      simp at hb
    · rcases he : df.isEmpty with _ | _
      · rcases hgen : inp.generate_report with _ | _
        · rw [runCycle_no_generate env inp df hld he hgen] at hb
          simp at hb
        · rw [runCycle_generate env inp df hld he hgen] at hb
          rcases hpr : env.profile_report (profileConfigOf df) with e | p
          · rw [generateSection_error env inp.selected_builtin df e hpr] at hb
            simp at hb
          · rw [generateSection_ok env inp.selected_builtin df p hpr] at hb
            simp only [Option.some.injEq] at hb
            subst hb
            exact ⟨rfl, rfl⟩
      · rw [runCycle_empty_df env inp df hld he] at hb
        simp at hb
  · intro b hb
    rcases hld : (loadData env inp).1 with _ | df
    · rw [runCycle_no_df env inp hld] at hb
      simp at hb
    · rcases he : df.isEmpty with _ | _
      · rcases hgen : inp.generate_report with _ | _
        · rw [runCycle_no_generate env inp df hld he hgen] at hb
          simp at hb
        · rw [runCycle_generate env inp df hld he hgen] at hb
          rcases hpr : env.profile_report (profileConfigOf df) with e | p
          · rw [generateSection_error env inp.selected_builtin df e hpr] at hb
            simp at hb
          · rw [generateSection_ok env inp.selected_builtin df p hpr] at hb
            rcases htr : bytesTruthy (convert_html_to_pdf env (env.to_html p)).1 with _ | _
            · rw [if_neg (show
                ¬(bytesTruthy (convert_html_to_pdf env (env.to_html p)).1 = true)
                by simp [htr])] at hb
              simp at hb
            · rw [if_pos htr] at hb
              simp only [Option.some.injEq] at hb
              subst hb
              exact ⟨rfl, rfl⟩
      · rw [runCycle_empty_df env inp df hld he] at hb
        simp at hb
  · intro h
    unfold datasetLabel
    rw [if_neg h]

/-- C6 witness: a cycle (working PDF renderer, `juice` selected, button
pressed) that offers both download buttons. -/
theorem export_file_names_witness :
    (runCycle pdfEnv inpJuiceGen).htmlButton =
      some ⟨"📥 Download HTML", "juice_profiling.html", "text/html"⟩ ∧
    Download.file_name ⟨"📥 Download HTML", "juice_profiling.html", "text/html"⟩ =
      datasetLabel inpJuiceGen.selected_builtin ++ "_profiling.html" ∧
    (runCycle pdfEnv inpJuiceGen).pdfButton =
      some ⟨"📥 Download PDF", "juice_profiling.pdf", "application/pdf"⟩ ∧
    Download.file_name ⟨"📥 Download PDF", "juice_profiling.pdf", "application/pdf"⟩ =
      datasetLabel inpJuiceGen.selected_builtin ++ "_profiling.pdf" :=
  ⟨rfl,
   ((export_file_names pdfEnv inpJuiceGen).1
     ⟨"📥 Download HTML", "juice_profiling.html", "text/html"⟩ rfl).1,
   rfl,
   ((export_file_names pdfEnv inpJuiceGen).2.1
     ⟨"📥 Download PDF", "juice_profiling.pdf", "application/pdf"⟩ rfl).1⟩

/-- C8: when a non-empty dataframe is active, the preview block hands
`df.head 10` to `st.dataframe` — same columns, first ten rows (`List.take 10`)
— and the dataframe itself is untouched: the page still holds `df`, and
profiling, if invoked in the same cycle, receives the full `df`. -/
theorem preview_first_ten (env : Env) (inp : Inputs) (df : DataFrame)
    (hdf : (runCycle env inp).df = some df) (hne : df.isEmpty = false) :
    (runCycle env inp).preview = some (df.head 10) ∧
    (df.head 10).cols = df.cols ∧
    (df.head 10).rows = df.rows.take 10 ∧
    (∀ cfg, (runCycle env inp).profiledWith = some cfg → cfg.data = df) := by
  have hld : (loadData env inp).1 = some df := by
    rw [← runCycle_df_eq]
    exact hdf
  refine ⟨?_, rfl, rfl, ?_⟩
  · rcases hgen : inp.generate_report with _ | _
    · rw [runCycle_no_generate env inp df hld hne hgen]
    · rw [runCycle_generate env inp df hld hne hgen]
  · intro cfg hcfg
    rcases hgen : inp.generate_report with _ | _
    · rw [runCycle_no_generate env inp df hld hne hgen] at hcfg
      simp at hcfg
    · rw [runCycle_generate env inp df hld hne hgen] at hcfg
      rcases hpr : env.profile_report (profileConfigOf df) with e | p
      · rw [generateSection_error env inp.selected_builtin df e hpr] at hcfg
        simp only [Option.some.injEq] at hcfg
        subst hcfg
        rfl
      · rw [generateSection_ok env inp.selected_builtin df p hpr] at hcfg
        simp only [Option.some.injEq] at hcfg
        subst hcfg
        rfl

/-- C8 witness: the `juice` cycle previews the first ten rows. -/
theorem preview_first_ten_witness :
    (runCycle testEnv inpJuice).preview = some (juiceDF.head 10) ∧
    (juiceDF.head 10).rows = juiceDF.rows.take 10 :=
  ⟨(preview_first_ten testEnv inpJuice juiceDF rfl rfl).1,
   (preview_first_ten testEnv inpJuice juiceDF rfl rfl).2.2.1⟩

/-- C9: whenever a cycle invokes the profiling library, the configuration is
exactly `ProfileReport(df, title="Data Profiling", explorative=True,
minimal=True)` where `df` is the page's full active dataframe — minimal mode
enabled, no sampling (`app.py:127-132`). -/
theorem profiling_minimal_on_full_df (env : Env) (inp : Inputs) (cfg : ProfileConfig)
    (h : (runCycle env inp).profiledWith = some cfg) :
    (runCycle env inp).df = some cfg.data ∧
    cfg.minimal = true ∧ cfg.explorative = true ∧ cfg.title = "Data Profiling" := by
  rcases hld : (loadData env inp).1 with _ | df
  · rw [runCycle_no_df env inp hld] at h
    simp at h
  · rcases he : df.isEmpty with _ | _
    · rcases hgen : inp.generate_report with _ | _
      · rw [runCycle_no_generate env inp df hld he hgen] at h
        simp at h
      · rw [runCycle_generate env inp df hld he hgen] at h
        rcases hpr : env.profile_report (profileConfigOf df) with e | p
        · rw [generateSection_error env inp.selected_builtin df e hpr] at h
          simp only [Option.some.injEq] at h
          subst h
          exact ⟨by rw [runCycle_df_eq, hld]; exact rfl, rfl, rfl, rfl⟩
        · rw [generateSection_ok env inp.selected_builtin df p hpr] at h
          simp only [Option.some.injEq] at h
          subst h
          exact ⟨by rw [runCycle_df_eq, hld]; exact rfl, rfl, rfl, rfl⟩
    · rw [runCycle_empty_df env inp df hld he] at h
      simp at h

/-- C9 witness: the `juice` cycle with the button pressed. -/
theorem profiling_minimal_on_full_df_witness :
    (runCycle testEnv inpJuiceGen).df = some (profileConfigOf juiceDF).data ∧
    (profileConfigOf juiceDF).minimal = true ∧
    (profileConfigOf juiceDF).explorative = true ∧
    (profileConfigOf juiceDF).title = "Data Profiling" :=
  profiling_minimal_on_full_df testEnv inpJuiceGen (profileConfigOf juiceDF) rfl

end DataExplorer
